import Mathlib

/-!
Shallow embedding of the `wasm32` threading implementation of `wasm_thread`
(`src/wasm32/mod.rs`): the scope lifetime tracker (`ScopeData`), the result
transport (`Packet`), the worker-context construction with its two panic
capture points, the join surface (`JoinInner` / `JoinHandle`) and the
builder / spawn orchestration.

Machine integers: the crate targets `wasm32`, so `usize` is 32 bits wide and
the atomic `fetch_add` / `fetch_sub` operations wrap modulo `2 ^ 32`.  We model
counters as `Nat` with explicit `% usizeWrap`.

Panics are modelled explicitly: an operation that can panic returns `Except`,
with `Except.error` carrying either the panic payload or the state at the
moment of the panic.  The one-shot `Signal` primitive lives in `mod signal`,
which is not part of the sources at hand; following its documented contract it
is modelled as a boolean set-once flag (see `ScopeData.signal_signal` and the
`signal_fired` fields).
-/

/-- Modulus of `usize` arithmetic on the `wasm32` target: `2 ^ 32`. -/
def usizeWrap : Nat := 4294967296

/-- Largest `usize` value on `wasm32` (`usize::MAX = 2 ^ 32 - 1`). -/
def usizeMax : Nat := 4294967295

/-- State of a scope (`ScopeData` in the source): the number of running
threads, the sticky `a_thread_panicked` flag and the completion signal.
The `Signal` is modelled from the spec as a one-shot boolean flag
(`signal()` sets it, and observers see it set); the field `signal_fired`
records whether `signal()` has been called. -/
structure ScopeData where
  num_running_threads : Nat
  a_thread_panicked : Bool
  signal_fired : Bool
  deriving DecidableEq, Repr

/-- Modelled from the spec: `Signal::signal` (defined in `mod signal`, not in
the sources at hand) sets the one-shot notification; it is idempotent and
never unsets. -/
def ScopeData.signal_signal (s : ScopeData) : ScopeData :=
  { s with signal_fired := true }

/-- Model of `ScopeData::decrement_num_running_threads(panic)`: if `panic` is
true, store `true` into `a_thread_panicked`; then `fetch_sub(1)` on the
running count (wrapping modulo `usizeWrap`), and if the value before the
subtraction was `1`, fire the scope's signal. -/
def ScopeData.decrement_num_running_threads (s : ScopeData) (panic : Bool) : ScopeData :=
  let s1 := if panic then { s with a_thread_panicked := true } else s
  let old := s1.num_running_threads
  let s2 := { s1 with num_running_threads := (old + usizeMax) % usizeWrap }
  if old = 1 then s2.signal_signal else s2

/-- Model of `ScopeData::increment_num_running_threads`: `fetch_add(1)`
(wrapping) on the running count; if the value before the addition exceeded
`usize::MAX / 2`, undo the increment via
`decrement_num_running_threads(false)` and panic with
"too many running threads in thread scope".  The panic is modelled as
`Except.error` carrying the scope state at the moment of the panic. -/
def ScopeData.increment_num_running_threads (s : ScopeData) : Except ScopeData ScopeData :=
  let old := s.num_running_threads
  let s1 := { s with num_running_threads := (old + 1) % usizeWrap }
  if usizeMax / 2 < old then
    Except.error (s1.decrement_num_running_threads false)
  else
    Except.ok s1

/-- Running a batch of children tearing down in some order: each child calls
`decrement_num_running_threads` exactly once with its own `panic` flag; the
list order is the order in which the children happen to finish. -/
def ScopeData.applyDecrements (s : ScopeData) (flags : List Bool) : ScopeData :=
  flags.foldl ScopeData.decrement_num_running_threads s

/-- The result transport (`Packet<'scope, T>` in the source): an optional
reference to the owning scope's shared state and the write-once result slot
`Option<Result<T>>`.  `Result<T>` is `std::thread::Result`, i.e. either the
produced value or a captured panic payload; we model it as `Except P T` with
`P` the payload type. -/
structure Packet (T P : Type) where
  scope : Option ScopeData
  result : Option (Except P T)

/-- Model of `impl Drop for Packet`: record whether the slot still holds an
unread captured panic, clear the slot, and, if the packet belongs to a scope,
call `decrement_num_running_threads(unhandled_panic)` on that scope.  The
returned value is the owning scope's state after the drop (`none` when the
packet is unscoped).  Dropping the stored result is assumed not to panic
itself (the source aborts the process in that case). -/
def Packet.drop {T P : Type} (p : Packet T P) : Option ScopeData :=
  let unhandled_panic : Bool :=
    match p.result with
    | some (Except.error _) => true
    | _ => false
  p.scope.map fun s => s.decrement_num_running_threads unhandled_panic

/-- Model of the body of the `main` closure built in `WebWorkerContext::new`:
the user callable is split into a synchronous construction step (which may
panic: outer `Except.error`, first capture point via `catch_unwind`) yielding
a future whose asynchronous execution may itself panic (inner `Except.error`,
second capture point via `catch_unwind()` on the future).  The value written
into the packet is `Ok(v)` when both steps succeed and `Err(payload)` when
either step panics. -/
def runWork {T P : Type} (work : Except P (Except P T)) : Except P T :=
  match work with
  | Except.ok fut_result => fut_result
  | Except.error e => Except.error e

/-- Per-spawned-unit state held by the joiner (`JoinInner` in the source): the
`Arc<Packet>` and the completion `Signal` (modelled from the spec as a
boolean flag, like the scope's signal). -/
structure JoinInner (T P : Type) where
  packet : Packet T P
  signal_fired : Bool

/-- Model of `WebWorkerContext::new`: allocates the fresh signal (unset) and
the fresh packet (empty result slot, holding the optional scope reference).
The returned state is what `JoinInner` will hold; the worker-side closure is
modelled by `workerMain` below. -/
def WebWorkerContext.new {T P : Type} (scope_data : Option ScopeData) : JoinInner T P :=
  { packet := { scope := scope_data, result := none }, signal_fired := false }

/-- Model of the worker executing the `main` closure of
`WebWorkerContext::new`: the outcome of the (panic-wrapped) work is written
into the packet's result slot, and then the signal is fired.  The write
happens before the signal, which is the only synchronization the packet
needs. -/
def workerMain {T P : Type} (st : JoinInner T P) (work : Except P (Except P T)) : JoinInner T P :=
  { st with
    packet := { st.packet with result := some (runWork work) },
    signal_fired := true }

/-- Model of `JoinInner::join` (and `join_async`, which differs only in how it
waits): after waiting on the signal, `take()` the packet's result slot and
`unwrap()` it.  The first component is the slot content handed to `unwrap`
(`none` would be an unwrap panic); the second component is the state
afterwards, with the slot cleared by `take()`. -/
def JoinInner.join {T P : Type} (st : JoinInner T P) : Option (Except P T) × JoinInner T P :=
  (st.packet.result, { st with packet := { st.packet with result := none } })

/-- Public join handle (`JoinHandle<T>` wraps a `JoinInner<'static, T>`). -/
structure JoinHandle (T P : Type) where
  inner : JoinInner T P

/-- Placeholder for `std::thread::Thread`, never constructed by this crate's
wasm32 implementation. -/
inductive Thread where
  | mk
  deriving DecidableEq, Repr

/-- Model of `JoinHandle::thread`: the body is `unimplemented!()`, a panic
with message "not implemented", modelled as `Except.error`. -/
def JoinHandle.thread {T P : Type} (h : JoinHandle T P) : Except String Thread :=
  Except.error "not implemented"

/-- Thread factory configuration (`Builder` in the source): five optional
options.  The field `pfx` models the source field spelled `prefix` (an
identification prefix for the thread-to-be), renamed because `prefix` is a
Lean keyword. -/
structure Builder where
  name : Option String
  pfx : Option String
  worker_script_url : Option String
  stack_size : Option Nat
  wasm_bindgen_shim_url : Option String
  deriving DecidableEq, Repr

/-- Model of `Builder::empty`: every option is `None`; the global default is
not consulted. -/
def Builder.empty : Builder :=
  { name := none
    pfx := none
    worker_script_url := none
    stack_size := none
    wasm_bindgen_shim_url := none }

/-- Model of `impl Default for Builder`:
`DEFAULT_BUILDER.lock_spin().unwrap().clone().unwrap_or(Self::empty())`.
The process-wide cell `DEFAULT_BUILDER : Mutex<Option<Builder>>` is passed
explicitly as `glob`; the spin lock guards a plain clone, so taking the lock
is modelled as reading the cell. -/
def Builder.default (glob : Option Builder) : Builder :=
  glob.getD Builder.empty

/-- Model of `Builder::new`: just `Builder::default()`. -/
def Builder.new (glob : Option Builder) : Builder :=
  Builder.default glob

/-- Model of `Builder::set_default`: store `Some(self)` into the process-wide
`DEFAULT_BUILDER` cell, returning the new cell content (the previous content
is overwritten). -/
def Builder.set_default (b : Builder) (glob : Option Builder) : Option Builder :=
  some b

/-- Observable outcome of `Builder::spawn_for_context` as far as the startup
message delivery is concerned: whether the boxed `WebWorkerContext` was freed,
whether the function panicked (the source ends in `.unwrap()` on the
`post_message` result, so an `Err(e)` becomes a panic carrying `e`), and
whether a worker handle was returned to the caller. -/
structure SpawnForContextOutcome (E : Type) where
  ctx_freed : Bool
  panicked : Option E
  worker_returned : Bool
  deriving DecidableEq, Repr

/-- Model of the tail of `Builder::spawn_for_context`, parameterized by the
host's response to `worker.post_message(&init)` (`Except.ok ()` for accepted,
`Except.error e` for rejected).  On `Ok(())` the worker handle is returned and
the context pointer stays with the worker; on `Err(e)` the source runs
`drop(Box::from_raw(ctx_ptr))` — freeing the context — and then `.unwrap()`s
the `Err`, i.e. it panics instead of returning an error. -/
def spawn_for_context {E : Type} (post_message_result : Except E Unit) : SpawnForContextOutcome E :=
  match post_message_result with
  | Except.ok _ => { ctx_freed := false, panicked := none, worker_returned := true }
  | Except.error e => { ctx_freed := true, panicked := some e, worker_returned := false }

/-- Characterization of a single decrement in closed form. -/
theorem decrement_eq (s : ScopeData) (f : Bool) :
    s.decrement_num_running_threads f =
      { num_running_threads := (s.num_running_threads + usizeMax) % usizeWrap,
        a_thread_panicked := f || s.a_thread_panicked,
        signal_fired := s.signal_fired || decide (s.num_running_threads = 1) } := by
  cases s with
  | mk n b sig =>
    cases f <;>
      simp only [ScopeData.decrement_num_running_threads, ScopeData.signal_signal,
        if_true, if_false, Bool.false_or, Bool.true_or] <;>
      by_cases hn : n = 1 <;>
      simp [hn]

/-- Helper: a scope holding `n` running threads with its signal unset, seeing
`k ≤ n` child teardowns in any order and with any per-child panic flags, ends
with `n - k` running threads, and its completion signal has fired exactly when
all `n` children (with `n` positive) have torn down. -/
theorem applyDecrements_count_signal (flags : List Bool) :
    ∀ (n : Nat) (b : Bool), flags.length ≤ n → n ≤ usizeMax →
      (ScopeData.applyDecrements ⟨n, b, false⟩ flags).num_running_threads = n - flags.length ∧
      ((ScopeData.applyDecrements ⟨n, b, false⟩ flags).signal_fired = true ↔
        0 < n ∧ flags.length = n) := by
  induction flags with
  | nil =>
    intro n b hlen hmax
    simp only [ScopeData.applyDecrements, List.foldl_nil, List.length_nil]
    refine ⟨rfl, ?_⟩
    simp only [Bool.false_eq_true, false_iff]
    omega
  | cons f rest ih =>
    intro n b hlen hmax
    have hn1 : 1 ≤ n := le_trans (by simp) hlen
    have hnum : (n + usizeMax) % usizeWrap = n - 1 := by
      simp only [usizeMax, usizeWrap] at hmax ⊢
      omega
    have hdec : ScopeData.decrement_num_running_threads ⟨n, b, false⟩ f =
        ⟨n - 1, f || b, decide (n = 1)⟩ := by
      rw [decrement_eq, hnum]
      simp
    have hunfold : ScopeData.applyDecrements ⟨n, b, false⟩ (f :: rest) =
        ScopeData.applyDecrements ⟨n - 1, f || b, decide (n = 1)⟩ rest := by
      simp only [ScopeData.applyDecrements, List.foldl_cons, hdec]
    by_cases hone : n = 1
    · subst hone
      have hrest : rest = [] := by
        simp only [List.length_cons] at hlen
        exact List.eq_nil_of_length_eq_zero (by omega)
      subst hrest
      rw [hunfold]
      simp [ScopeData.applyDecrements]
    · have hfired : decide (n = 1) = false := by simp [hone]
      rw [hunfold, hfired]
      obtain ⟨h1, h2⟩ := ih (n - 1) (f || b)
        (by simp only [List.length_cons] at hlen; omega) (by omega)
      rw [h1, h2]
      simp only [List.length_cons]
      omega

/-- C4: incrementing a scope's running count when it already exceeds
`usize::MAX / 2` panics (the increment returns `Except.error`), and every
successful increment leaves the counter at its exact successor — no modular
wraparound happens and the counter is never zero while a child was just
registered. -/
theorem increment_overflow_fatal (s : ScopeData) :
    (∀ s', s.increment_num_running_threads = Except.ok s' →
        s'.num_running_threads = s.num_running_threads + 1 ∧
        s'.num_running_threads ≠ 0 ∧
        s.num_running_threads ≤ usizeMax / 2) ∧
    (usizeMax / 2 < s.num_running_threads →
      ∃ s', s.increment_num_running_threads = Except.error s') := by
  cases s with
  | mk n b sig =>
    constructor
    · intro s' hok
      unfold ScopeData.increment_num_running_threads at hok
      by_cases h : usizeMax / 2 < n
      · simp only [h, if_true] at hok
        exact absurd hok (by simp)
      · simp only [h, if_false, Except.ok.injEq] at hok
        subst hok
        simp only [usizeMax, usizeWrap] at h ⊢
        refine ⟨by omega, by omega, by omega⟩
    · intro h
      unfold ScopeData.increment_num_running_threads
      simp only [h, if_true]
      exact ⟨_, rfl⟩

/-- Witness for C4 at concrete scopes: a scope with no running threads
increments to exactly one thread, and a scope already at `usize::MAX`
running threads panics on increment. -/
theorem increment_overflow_fatal_witness :
    ((⟨1, false, false⟩ : ScopeData).num_running_threads = (0 : Nat) + 1 ∧
      (⟨1, false, false⟩ : ScopeData).num_running_threads ≠ 0 ∧
      (0 : Nat) ≤ usizeMax / 2) ∧
    (∃ s', ScopeData.increment_num_running_threads ⟨usizeMax, false, false⟩ =
      Except.error s') :=
  ⟨(increment_overflow_fatal ⟨0, false, false⟩).1 ⟨1, false, false⟩ rfl,
   (increment_overflow_fatal ⟨usizeMax, false, false⟩).2 (by norm_num [usizeMax])⟩

/-- C10: when the increment trips the overflow check, the compensating
`decrement_num_running_threads(false)` on the panic path restores the scope
state exactly: same running count as before the call, the failure flag not
set, the signal not fired. -/
theorem increment_overflow_restores_state (s s' : ScopeData)
    (hbound : s.num_running_threads ≤ usizeMax)
    (herr : s.increment_num_running_threads = Except.error s') :
    s' = s := by
  cases s with
  | mk n b sig =>
    unfold ScopeData.increment_num_running_threads at herr
    by_cases h : usizeMax / 2 < n
    · simp only [h, if_true, Except.error.injEq] at herr
      subst herr
      rw [decrement_eq]
      simp only [ScopeData.mk.injEq, Bool.false_or]
      simp only [usizeMax, usizeWrap] at hbound h ⊢
      have hne : ¬((n + 1) % 4294967296 = 1) := by omega
      refine ⟨by omega, by simp, by simp [hne]⟩
    · simp only [h, if_false] at herr
      exact absurd herr (by simp)

/-- Witness for C10: a scope at `usize::MAX` running threads panics on
increment and is left exactly as it was. -/
theorem increment_overflow_restores_state_witness :
    (⟨usizeMax, false, false⟩ : ScopeData) = ⟨usizeMax, false, false⟩ :=
  increment_overflow_restores_state ⟨usizeMax, false, false⟩ ⟨usizeMax, false, false⟩
    (by norm_num) (by rfl)

/-- Helper: once the sticky `a_thread_panicked` flag is set, no sequence of
child teardowns clears it. -/
theorem applyDecrements_flag_mono (flags : List Bool) :
    ∀ s : ScopeData, s.a_thread_panicked = true →
      (s.applyDecrements flags).a_thread_panicked = true := by
  induction flags with
  | nil =>
    intro s hs
    exact hs
  | cons f rest ih =>
    intro s hs
    have hstep : (s.decrement_num_running_threads f).a_thread_panicked = true := by
      rw [decrement_eq]
      simp [hs]
    simp only [ScopeData.applyDecrements, List.foldl_cons]
    exact ih _ hstep

/-- C5: for a scope with `N` spawned children (running count `N`, signal
unset), the completion signal has fired after some of the children tore down
if and only if all `N` of them did, whatever the order and panic flags of the
teardowns; the running count after `k` teardowns is `N - k`. -/
theorem scope_completion_commutative (N : Nat) (b : Bool) (flags : List Bool)
    (hN : 0 < N) (hmax : N ≤ usizeMax) (hlen : flags.length ≤ N) :
    ((ScopeData.applyDecrements ⟨N, b, false⟩ flags).signal_fired = true ↔
      flags.length = N) ∧
    (ScopeData.applyDecrements ⟨N, b, false⟩ flags).num_running_threads =
      N - flags.length := by
  obtain ⟨h1, h2⟩ := applyDecrements_count_signal flags N b hlen hmax
  refine ⟨?_, h1⟩
  rw [h2]
  exact ⟨fun h => h.2, fun h => ⟨hN, h⟩⟩

/-- Witness for C5: a scope with two children tearing down (second one with
a panic flag) fires its signal exactly at the second teardown. -/
theorem scope_completion_commutative_witness :
    ((ScopeData.applyDecrements ⟨2, false, false⟩ [false, true]).signal_fired = true ↔
      ([false, true] : List Bool).length = 2) ∧
    (ScopeData.applyDecrements ⟨2, false, false⟩ [false, true]).num_running_threads =
      2 - ([false, true] : List Bool).length :=
  scope_completion_commutative 2 false [false, true] (by norm_num)
    (by norm_num [usizeMax]) (by simp)

/-- C6: dropping a scoped packet that still holds an unread captured panic
sets the scope's sticky failure flag, and the flag stays set through any
further child teardowns (in particular successful ones) and through any
successful increment. -/
theorem scope_failure_flag_sticky (T P : Type) (p : P) (s : ScopeData) (flags : List Bool)
    (t : ScopeData)
    (hdrop : Packet.drop { scope := some s, result := some (Except.error p) : Packet T P }
      = some t) :
    t.a_thread_panicked = true ∧
    (t.applyDecrements flags).a_thread_panicked = true ∧
    (∀ u, t.increment_num_running_threads = Except.ok u → u.a_thread_panicked = true) := by
  simp only [Packet.drop, Option.map_some] at hdrop
  have ht : t = s.decrement_num_running_threads true := by
    cases hdrop
    rfl
  have hflag : t.a_thread_panicked = true := by
    rw [ht, decrement_eq]
    simp
  refine ⟨hflag, applyDecrements_flag_mono flags t hflag, ?_⟩
  intro u hok
  unfold ScopeData.increment_num_running_threads at hok
  by_cases hc : usizeMax / 2 < t.num_running_threads
  · simp only [hc, if_true] at hok
    exact absurd hok (by simp)
  · simp only [hc, if_false, Except.ok.injEq] at hok
    subst hok
    exact hflag

/-- Witness for C6: a scope with three running threads whose child drops an
unread panic payload gets its failure flag set, and the flag survives a
further successful teardown and a successful increment. -/
theorem scope_failure_flag_sticky_witness :
    (⟨2, true, false⟩ : ScopeData).a_thread_panicked = true ∧
    (ScopeData.applyDecrements ⟨2, true, false⟩ [false]).a_thread_panicked = true ∧
    (∀ u, ScopeData.increment_num_running_threads ⟨2, true, false⟩ = Except.ok u →
      u.a_thread_panicked = true) :=
  scope_failure_flag_sticky Nat String "boom" ⟨3, false, false⟩ [false]
    ⟨2, true, false⟩ rfl

/-- C2: a spawned unit whose callable completes successfully with value `v`
fires its signal, `join` returns exactly `Ok(v)`, and the single join
read-and-clears the write-once result slot (the slot is empty afterwards). -/
theorem join_returns_success_exactly_once (T P : Type) (v : T)
    (scope_data : Option ScopeData) :
    (workerMain (WebWorkerContext.new (T := T) (P := P) scope_data)
        (Except.ok (Except.ok v))).signal_fired = true ∧
    (JoinInner.join (workerMain (WebWorkerContext.new (T := T) (P := P) scope_data)
        (Except.ok (Except.ok v)))).1 = some (Except.ok v) ∧
    (JoinInner.join (workerMain (WebWorkerContext.new (T := T) (P := P) scope_data)
        (Except.ok (Except.ok v)))).2.packet.result = none :=
  ⟨rfl, rfl, rfl⟩

/-- C3: a spawned unit whose callable panics with payload `p` — whether in the
synchronous construction step (outer capture point) or in the asynchronous
execution step (inner capture point) — gets `Err(p)` written into its packet,
and `join` returns that captured failure rather than re-raising it. -/
theorem join_returns_failure_both_phases (T P : Type) (p : P)
    (scope_data : Option ScopeData) :
    (JoinInner.join (workerMain (WebWorkerContext.new (T := T) (P := P) scope_data)
        (Except.error p))).1 = some (Except.error p) ∧
    (JoinInner.join (workerMain (WebWorkerContext.new (T := T) (P := P) scope_data)
        (Except.ok (Except.error p)))).1 = some (Except.error p) :=
  ⟨rfl, rfl⟩

/-- C9: after a join consumed the outcome (even a failure outcome), the
packet's slot is empty, so its drop calls the scope decrement with
`unhandled_panic = false` and therefore never sets the scope's failure
flag. -/
theorem joined_packet_drop_no_failure_flag (T P : Type)
    (work : Except P (Except P T)) (s : ScopeData) :
    (JoinInner.join (workerMain (WebWorkerContext.new (some s)) work)).2.packet.result
      = none ∧
    Packet.drop (JoinInner.join (workerMain (WebWorkerContext.new (some s)) work)).2.packet
      = some (s.decrement_num_running_threads false) ∧
    (s.decrement_num_running_threads false).a_thread_panicked = s.a_thread_panicked := by
  refine ⟨rfl, rfl, ?_⟩
  rw [decrement_eq]
  simp

/-- C7: after installing a process-wide default configuration with
`set_default`, a builder made by the default-seeking constructor
(`Builder::new` / `Builder::default`) is a copy of it, while `Builder::empty`
has all five options unset and never consults the installed default. -/
theorem builder_default_inheritance (b : Builder) (glob : Option Builder) :
    Builder.new (b.set_default glob) = b ∧
    Builder.empty.name = none ∧
    Builder.empty.pfx = none ∧
    Builder.empty.worker_script_url = none ∧
    Builder.empty.stack_size = none ∧
    Builder.empty.wasm_bindgen_shim_url = none :=
  ⟨rfl, rfl, rfl, rfl, rfl, rfl⟩

/-- C8: `JoinHandle::thread` is `unimplemented!()`: for every handle it
panics with "not implemented" and never returns a `Thread`. -/
theorem join_handle_thread_unconditionally_panics (T P : Type) (h : JoinHandle T P) :
    h.thread = Except.error "not implemented" :=
  rfl

/-- C1 evidence: when the host rejects the startup message
(`post_message` returns `Err(e)`), `spawn_for_context` frees the boxed
context but then panics on the final `.unwrap()` — it does not return an
I/O-class error to the `spawn` caller. -/
theorem spawn_send_failure_frees_context_and_panics (E : Type) (e : E) :
    spawn_for_context (Except.error e) =
      { ctx_freed := true, panicked := some e, worker_returned := false } :=
  rfl
